import Mathlib

/-!
Verification of the incremental-ingestion control loop and crash-recovery
transaction log of `src/ice_stream/icestream.py`.

The embedding is shallow: the `StreamingState` transaction log becomes a pure
record `TxState` with one function per mutation method (`save_state` persists
the whole record after every mutation, so the returned record is the persisted
state); remote-store I/O (`fsspec` deletes, `xarray` loads) is modelled by
explicit outcome parameters; the tenacity `@retry(stop=stop_after_attempt(3))`
wrapper around `delete_data` is modelled attempt by attempt, including the fact
that it wraps every exhaustion in `RetryError`; datasets are modelled by their
attribute map and their `timestamp` coordinate (milliseconds since the epoch).
-/

namespace IceStream

/-! ## The transaction log (`StreamingState`) -/

/-- The three persisted pointers of `streaming_state.yaml`. -/
structure TxState where
  last_valid_target : String
  penultimate_valid_target : String
  incomplete_target : String
deriving Repr, DecidableEq

/-- The default state written when the state file is missing or empty. -/
def initialState : TxState :=
  { last_valid_target := "", penultimate_valid_target := "", incomplete_target := "" }

/-- `StreamingState.on_deleted`: clears `incomplete_target` after the
incomplete object was (or is assumed) deleted. -/
def on_deleted (st : TxState) : TxState :=
  { st with incomplete_target := "" }

/-- `StreamingState.on_new_transaction`: records the intent to create a new
target.  `last_valid_target` is deliberately untouched. -/
def on_new_transaction (st : TxState) (file_path : String) : TxState :=
  { st with penultimate_valid_target := st.last_valid_target,
            incomplete_target := file_path }

/-- `StreamingState.on_append_transaction`: demotes the current target to
incomplete and falls back to the penultimate pointer. -/
def on_append_transaction (st : TxState) : TxState :=
  { st with incomplete_target := st.last_valid_target,
            last_valid_target := st.penultimate_valid_target }

/-- `StreamingState.on_complete_transaction` (its pure state transition):
promotes `incomplete_target` and clears it. -/
def on_complete_transaction (st : TxState) : TxState :=
  { st with last_valid_target := st.incomplete_target,
            incomplete_target := "" }

/-! ## Transaction-log events and reachable traces -/

/-- One call to a mutation method of `StreamingState`. -/
inductive TxEvent where
  | newTxn (target : String)
  | appendTxn
  | completeTxn
  | deletedEvt
deriving Repr, DecidableEq

def applyEvent (st : TxState) : TxEvent → TxState
  | .newTxn target => on_new_transaction st target
  | .appendTxn => on_append_transaction st
  | .completeTxn => on_complete_transaction st
  | .deletedEvt => on_deleted st

def runTrace (st : TxState) (es : List TxEvent) : TxState :=
  es.foldl applyEvent st

/-- The driver's calling discipline: a begin event is issued only between
iterations (no transaction in flight); `on_new_transaction` receives a real
target URL; `on_append_transaction` is issued only when a validated previous
target exists (`is_appendable` required `last_ds` to be loaded); the end
events are issued only while a transaction is in flight. -/
def validEvent (st : TxState) : TxEvent → Bool
  | .newTxn target => st.incomplete_target == "" && target != ""
  | .appendTxn => st.incomplete_target == "" && st.last_valid_target != ""
  | .completeTxn => st.incomplete_target != ""
  | .deletedEvt => st.incomplete_target != ""

def validTrace : TxState → List TxEvent → Bool
  | _, [] => true
  | st, e :: es => validEvent st e && validTrace (applyEvent st e) es

/-- Does this event open a transaction (`true`) or close one (`false`)? -/
def beginsTransaction : TxEvent → Bool
  | .newTxn _ => true
  | .appendTxn => true
  | .completeTxn => false
  | .deletedEvt => false

/-- Whether a transaction is in flight after the trace, given whether one was
in flight before it. -/
def openTransaction : Bool → List TxEvent → Bool
  | b, [] => b
  | _, e :: es => openTransaction (beginsTransaction e) es

/-! ## Datasets (the slices' attributes and `timestamp` coordinate) -/

/-- A scalar attribute value of a dataset. -/
inductive AttrVal where
  | str (s : String)
  | int (n : Int)
deriving Repr, DecidableEq

/-- The parts of an `xarray` dataset that the streaming logic inspects: the
attribute map, the `timestamp` coordinate (milliseconds since the epoch, in
order), and the size along `high_res_timestamp`. -/
structure Dataset where
  attrs : List (String × AttrVal)
  timestamps : List Nat
  high_res_size : Nat
deriving Repr, DecidableEq

/-- `ds.attrs[key]` as a total lookup: `none` is Python's `KeyError`. -/
def attrLookup (attrs : List (String × AttrVal)) (key : String) : Option AttrVal :=
  (attrs.find? (fun p => p.1 == key)).map (fun p => p.2)

def msPerMinute : Nat := 60000
def msPerDay : Nat := 86400000

/-- `ts.replace(hour=0, minute=0, second=0, microsecond=0)`: the start of the
calendar day containing `t`. -/
def dayStart (t : Nat) : Nat := msPerDay * (t / msPerDay)

/-! ## `Streaming.is_appendable` and `Streaming.is_within_timeframe` -/

/-- The key loop of `is_appendable`: `ds1.attrs[key] != ds2.attrs[key]`
returns `false` on a mismatch; a `KeyError` on either side is caught by the
surrounding `except` and also yields `false`. -/
def checkSignificantKeys (d1 d2 : Dataset) : List String → Bool
  | [] => true
  | key :: keys =>
    match attrLookup d1.attrs key, attrLookup d2.attrs key with
    | some v1, some v2 => if v1 = v2 then checkSignificantKeys d1 d2 keys else false
    | _, _ => false

/-- `Streaming.is_appendable`: `None` on either side is `false`; otherwise
every significant key must be present on both sides with equal values. -/
def is_appendable (ds1 ds2 : Option Dataset) (significant_keys : List String) : Bool :=
  match ds1, ds2 with
  | some d1, some d2 => checkSignificantKeys d1 d2 significant_keys
  | _, _ => false

/-- `Streaming.is_within_timeframe`: `None` on either side is `false`;
`timestamp1` is the calendar-day start of `ds1.timestamp[0]` plus
`max_timedelta`; the result is `false` iff `ds2.timestamp[0]` is later.  An
empty `timestamp` coordinate raises inside the `try` and yields `false`. -/
def is_within_timeframe (ds1 ds2 : Option Dataset) (max_timedelta : Nat) : Bool :=
  match ds1, ds2 with
  | some d1, some d2 =>
    match d1.timestamps.head?, d2.timestamps.head? with
    | some t1, some t2 =>
      let timestamp1 := dayStart t1 + max_timedelta
      if t2 > timestamp1 then false else true
    | _, _ => false
  | _, _ => false

/-! ## Chunk alignment in `Streaming._stream` -/

/-- The store's chunk size along `timestamp` (a fixed constant). -/
def chunkSize : Nat := 100

/-- `source_ds.isel(timestamp=slice(None, -(size % 100)))`, applied only when
the size is not already a multiple of the chunk size (a `(0, -0)` slice would
come out empty). -/
def align_to_chunk (ds : Dataset) : Dataset :=
  if ds.timestamps.length % chunkSize = 0 then ds
  else { ds with timestamps :=
          ds.timestamps.take (ds.timestamps.length - ds.timestamps.length % chunkSize) }

/-! ## The remote store, `load_validate_target_path` and recovery -/

/-- Outcome of one `fs.rm` call on the incomplete target. -/
inductive FsResult where
  | ok
  | fileNotFound
  | otherError
deriving Repr, DecidableEq

/-- The exceptions `delete_data` can raise past its tenacity wrapper: with
`stop=stop_after_attempt(3)` and the default `reraise=False`, every failing
attempt is retried and exhaustion raises `RetryError` carrying the last
attempt's outcome — nothing else escapes. -/
inductive DeleteExc where
  | retryError (last : FsResult)
deriving Repr, DecidableEq

/-- `delete_data(incomplete_target)` under `@retry(stop=stop_after_attempt(3))`:
up to three attempts of `fs.rm`, stopping at the first success (the co-located
`_high_res` sibling's removal is inside its own `try`/`except` and cannot fail
the attempt). -/
def delete_data (attempt : Nat → FsResult) : Except DeleteExc Unit :=
  if attempt 0 = FsResult.ok then Except.ok ()
  else if attempt 1 = FsResult.ok then Except.ok ()
  else if attempt 2 = FsResult.ok then Except.ok ()
  else Except.error (DeleteExc.retryError (attempt 2))

/-- What the remote store holds at a URL, as `load_validate_target_path`
observes it. -/
inductive LoadRes where
  | valid (ds : Dataset)
  | missing
  | accessError
deriving Repr

/-- `load_validate_target_path`: an empty URL and a missing or unusable path
give `None`; connectivity/authentication problems raise. -/
def load_validate_target_path (remote : String → LoadRes) (fsspec_url : String) :
    Except Unit (Option Dataset) :=
  if fsspec_url = "" then Except.ok none
  else
    match remote fsspec_url with
    | LoadRes.valid ds => Except.ok (some ds)
    | LoadRes.missing => Except.ok none
    | LoadRes.accessError => Except.error ()

/-- `Path(urlparse(url).path).parts[-1]`: the last path component. -/
def lastPathComponent (url : String) : String :=
  ((url.splitOn "/").getLast?).getD ""

/-- Python's `needle in hay` on strings. -/
def strContains (hay needle : String) : Bool :=
  needle == "" || (hay.splitOn needle).length > 1

/-- What `initialize_and_validate_paths` returns (plus, for auditability, the
remote objects its recovery step actually removed): the persisted state, the
availability flag and the `(pointer, dataset)` pair handed to the driver. -/
structure RecoveryResult where
  state : TxState
  available : Bool
  result : Option (String × Option Dataset)
  deleted : List String
deriving Repr

/-- `StreamingState.initialize_and_validate_paths`.  Step 1 deletes a
non-empty `incomplete_target` via `delete_data`; a success or a caught
`(FileNotFoundError, RetryError)` both lead to `on_deleted` — the
`except Exception` re-raise below them is unreachable because `delete_data`
only ever raises `RetryError`.  Step 2 best-effort validates the penultimate
pointer (an access error here propagates).  Step 3 validates
`last_valid_target`, falling back to listing the target root, and returns
`(False, None)` only on a cold start; an access error propagates as `.error`
(fatal). -/
def initialize_and_validate_paths (remote : String → LoadRes) (attempt : Nat → FsResult)
    (cloudUrls : List String) (st : TxState) : Except Unit RecoveryResult :=
  let step1 : TxState × List String :=
    if st.incomplete_target = "" then (st, [])
    else
      match delete_data attempt with
      | Except.ok _ => (on_deleted st, [st.incomplete_target])
      | Except.error (DeleteExc.retryError _) => (on_deleted st, [])
  let st1 := step1.1
  let step2 : Except Unit TxState :=
    if st1.penultimate_valid_target = "" then Except.ok st1
    else
      match load_validate_target_path remote st1.penultimate_valid_target with
      | Except.error _ => Except.error ()
      | Except.ok none => Except.ok { st1 with incomplete_target := "" }
      | Except.ok (some _) => Except.ok st1
  match step2 with
  | Except.error _ => Except.error ()
  | Except.ok st2 =>
    match load_validate_target_path remote st2.last_valid_target with
    | Except.error _ => Except.error ()
    | Except.ok (some ds) =>
      Except.ok { state := st2, available := true,
                  result := some (st2.last_valid_target, some ds), deleted := step1.2 }
    | Except.ok none =>
      let files := (cloudUrls.map lastPathComponent).mergeSort (fun a b => a ≤ b)
      match files.getLast? with
      | none =>
        Except.ok { state := { st2 with last_valid_target := "" }, available := false,
                    result := none, deleted := step1.2 }
      | some lastFile =>
        let lvt := ((cloudUrls.filter (fun u2 => strContains u2 lastFile)).head?).getD ""
        let st3 := { st2 with last_valid_target := lvt }
        match load_validate_target_path remote lvt with
        | Except.error _ => Except.error ()
        | Except.ok ds =>
          Except.ok { state := st3, available := true, result := some (lvt, ds),
                      deleted := step1.2 }

/-! ## The streaming driver (`Streaming`) -/

/-- The settings the window and appendability logic reads (defaults:
`streaming_days_per_file = 1`, `streaming_minutes = 30`; `significant_keys`
is imported configuration). -/
structure StreamConfig where
  streaming_days_per_file : Nat
  streaming_minutes : Nat
  significant_keys : List String

/-- The driver state threaded through `_stream`/`_progress`: the last valid
target URL and its loaded dataset, the transaction log, the recorded sequence
of log mutations, how many paths this window streamed (`streamed_paths`), and
`source_ds.timestamp[-1]` of the last processed slice. -/
structure StreamCtx where
  last_url : String
  last_ds : Option Dataset
  txState : TxState
  txEvents : List TxEvent
  streamed_count : Nat
  source_last : Option Nat
deriving Repr

/-- The body of `Streaming._stream`'s per-path loop.  The slice is trimmed to
a chunk boundary; a slice whose aligned size is zero is skipped with a log
line only — no transaction is opened and nothing is written.  Otherwise the
two classifiers choose between `on_append_transaction` on `last_url` and
`on_new_transaction` on the slice's own target URL; the `zappend` write, the
`_high_res` sibling and the setup sideload maintenance act only on the remote
store, and `on_complete_transaction` then promotes the pointer and reloads it
(`reload` stands for that `load_validate_target_path` read-back). -/
def stream_slice (cfg : StreamConfig) (reload : String → Option Dataset)
    (new_target_url : String) (ctx : StreamCtx) (sds : Dataset) : StreamCtx :=
  let source_ds := align_to_chunk sds
  if source_ds.timestamps.length = 0 then ctx
  else
    let appendable := is_appendable ctx.last_ds (some source_ds) cfg.significant_keys
    let within := is_within_timeframe ctx.last_ds (some source_ds)
        (cfg.streaming_days_per_file * msPerDay)
    let opened :=
      if appendable && within then (TxEvent.appendTxn, on_append_transaction ctx.txState)
      else (TxEvent.newTxn new_target_url, on_new_transaction ctx.txState new_target_url)
    let tx2 := on_complete_transaction opened.2
    { last_url := tx2.last_valid_target
      last_ds := reload tx2.last_valid_target
      txState := tx2
      txEvents := ctx.txEvents ++ [opened.1, TxEvent.completeTxn]
      streamed_count := ctx.streamed_count + 1
      source_last := source_ds.timestamps.getLast? }

/-- One `Streaming._stream` call: every slice file the backup provider
produced for `[since, until)` is processed in order (`fetch` returns each
local path's target URL together with its dataset). -/
def stream_window (cfg : StreamConfig) (fetch : Nat → Nat → List (String × Dataset))
    (reload : String → Option Dataset) (ctx : StreamCtx) (since untilTs : Nat) : StreamCtx :=
  (fetch since untilTs).foldl (fun c p => stream_slice cfg reload p.1 c p.2) ctx

/-- `Streaming._update_until`: the cutoff is the calendar-day start of
`since` plus the days-per-file span plus the `streaming_minutes` margin, and
`until` never passes the wall clock or the caller's hint. -/
def update_until (cfg : StreamConfig) (since now until_hint : Nat) : Nat :=
  let cutoff := dayStart since + cfg.streaming_days_per_file * msPerDay
      + cfg.streaming_minutes * msPerMinute
  min cutoff (min now until_hint)

/-- The `since` chosen by `Streaming._discover_timeframe` when past streamed
data is available with last ingested timestamp `lastTs`: one millisecond past
it, unless the caller's hint is strictly later. -/
def discover_since (lastTs : Nat) (since_hint : Option Nat) : Nat :=
  let since := lastTs + 1
  match since_hint with
  | none => since
  | some h => if h > since then h else since

/-- `Streaming._discover_timeframe` (prior-data-available case): a missing
`until` hint defaults to the wall clock before `_update_until` runs. -/
def discover_timeframe_available (cfg : StreamConfig) (lastTs now : Nat)
    (since_hint until_hint : Option Nat) : Nat × Nat :=
  let u := until_hint.getD now
  let since := discover_since lastTs since_hint
  (since, update_until cfg since now u)

/-- `Streaming.stream`'s `while` loop with `_progress` inlined, on explicit
fuel: `none` means the fuel ran out before `_progress` returned `False`;
`some ctx` means the loop terminated normally.  When the window streamed
nothing, `since` skips a full days-per-file span. -/
def stream_loop (cfg : StreamConfig) (fetch : Nat → Nat → List (String × Dataset))
    (reload : String → Option Dataset) (now until_hint : Nat) :
    Nat → StreamCtx → Nat → Nat → Option StreamCtx
  | 0, _, _, _ => none
  | fuel + 1, ctx, since, untilTs =>
    let ctx1 := stream_window cfg fetch reload ctx since untilTs
    let next : Nat × StreamCtx :=
      if ctx1.streamed_count > 0 then
        ((ctx1.source_last.getD 0) + 1, { ctx1 with streamed_count := 0 })
      else
        (since + cfg.streaming_days_per_file * msPerDay, ctx1)
    let until2 := update_until cfg next.1 now until_hint
    if next.1 ≥ until2 then some next.2
    else stream_loop cfg fetch reload now until_hint fuel next.2 next.1 until2

/-! ## Concrete fixtures -/

/-- A valid remote dataset, for concrete runs of the recovery routine. -/
def dsT1 : Dataset :=
  { attrs := [("instrument", AttrVal.str "A"), ("settings_id", AttrVal.int 1)],
    timestamps := [0], high_res_size := 0 }

/-- A remote store holding exactly one valid target, `"T1"`. -/
def remoteT1 : String → LoadRes :=
  fun u2 => if u2 = "T1" then LoadRes.valid dsT1 else LoadRes.missing

/-- Slice attributes `{instrument: "A", settings_id: 1}`, first timestamp at
day 0, 00:00. -/
def dsA1 : Dataset :=
  { attrs := [("instrument", AttrVal.str "A"), ("settings_id", AttrVal.int 1)],
    timestamps := [0], high_res_size := 0 }

/-- Same significant attributes as `dsA1`, one day later. -/
def dsA1b : Dataset :=
  { attrs := [("instrument", AttrVal.str "A"), ("settings_id", AttrVal.int 1)],
    timestamps := [msPerDay], high_res_size := 0 }

/-- `settings_id` changed to 2. -/
def dsA2 : Dataset :=
  { attrs := [("instrument", AttrVal.str "A"), ("settings_id", AttrVal.int 2)],
    timestamps := [msPerDay], high_res_size := 0 }

/-- Default settings: one day per file, 30 minutes margin, no significant
keys configured. -/
def streamCfg0 : StreamConfig :=
  { streaming_days_per_file := 1, streaming_minutes := 30, significant_keys := [] }

/-- The driver context right after a cold start. -/
def streamCtx0 : StreamCtx :=
  { last_url := "", last_ds := none, txState := initialState, txEvents := [],
    streamed_count := 0, source_last := none }

/-- A slice one full chunk long, appendable-shaped, used as the cold-start
witness input. -/
def ds100 : Dataset :=
  { attrs := [("instrument", AttrVal.str "A"), ("settings_id", AttrVal.int 1)],
    timestamps := List.range chunkSize, high_res_size := 0 }

/-! ## Helper lemmas -/

lemma align_to_chunk_length (ds : Dataset) :
    (align_to_chunk ds).timestamps.length
      = ds.timestamps.length - ds.timestamps.length % chunkSize := by
  unfold align_to_chunk
  split
  · next h => rw [h, Nat.sub_zero]
  · simp only [List.length_take]
    exact min_eq_left (Nat.sub_le _ _)

lemma openTransaction_closed_end (pre : List TxEvent) (b : Bool) :
    openTransaction b (pre ++ [TxEvent.completeTxn]) = false := by
  induction pre generalizing b with
  | nil => rfl
  | cons e es ih => simpa [openTransaction] using ih (beginsTransaction e)

lemma incomplete_iff_open (es : List TxEvent) : ∀ (st : TxState) (b : Bool),
    validTrace st es = true → (st.incomplete_target ≠ "" ↔ b = true) →
    ((runTrace st es).incomplete_target ≠ "" ↔ openTransaction b es = true) := by
  induction es with
  | nil => intro st b _ hb; simpa [runTrace, openTransaction] using hb
  | cons e es ih =>
    intro st b hv hb
    simp only [validTrace, Bool.and_eq_true] at hv
    have step : (applyEvent st e).incomplete_target ≠ "" ↔ beginsTransaction e = true := by
      cases e with
      | newTxn target =>
        have h1 := hv.1
        simp only [validEvent, Bool.and_eq_true, beq_iff_eq, bne_iff_ne, ne_eq] at h1
        simp [applyEvent, on_new_transaction, beginsTransaction, h1.2]
      | appendTxn =>
        have h1 := hv.1
        simp only [validEvent, Bool.and_eq_true, beq_iff_eq, bne_iff_ne, ne_eq] at h1
        simp [applyEvent, on_append_transaction, beginsTransaction, h1.2]
      | completeTxn => simp [applyEvent, on_complete_transaction, beginsTransaction]
      | deletedEvt => simp [applyEvent, on_deleted, beginsTransaction]
    have h3 := ih (applyEvent st e) (beginsTransaction e) hv.2 step
    simpa [runTrace, openTransaction] using h3

lemma checkSignificantKeys_iff (d1 d2 : Dataset) (keys : List String) :
    checkSignificantKeys d1 d2 keys = true ↔
      ∀ key ∈ keys, ∃ v, attrLookup d1.attrs key = some v ∧ attrLookup d2.attrs key = some v := by
  induction keys with
  | nil => simp [checkSignificantKeys]
  | cons k ks ih =>
    simp only [checkSignificantKeys]
    cases h1 : attrLookup d1.attrs k with
    | none => simp [h1]
    | some v1 =>
      cases h2 : attrLookup d2.attrs k with
      | none => simp [h1, h2]
      | some v2 =>
        by_cases hv : v1 = v2
        · subst hv; simp [h1, h2, ih]
        · simp [h1, h2, hv, fun v => show ¬(v1 = v ∧ v2 = v) from fun ⟨ha, hb⟩ => hv (ha.trans hb.symm)]

/-! ## The claims -/

/-- C1: the claim says exhaustion of the 3-attempt delete retry, or any
failure other than not-found (authentication/connectivity), is promoted to
Fatal and aborts the run without further mutating the transaction log.  The
code does not do that: tenacity wraps the exhaustion of `delete_data` in
`RetryError`, which the `except (FileNotFoundError, RetryError)` branch
catches as "already deleted", so with every delete attempt failing with an
authentication error the run clears `incomplete_target` via `on_deleted` and
continues, contradicting the function's own docstring ("If the connection or
authentication fails, raises an exception, so the process should be
cancelled") and the comment on the unreachable fatal branch. -/
theorem c1_delete_retry_exhaustion_not_fatal :
    initialize_and_validate_paths remoteT1 (fun _ => FsResult.otherError) []
        { last_valid_target := "T1", penultimate_valid_target := "", incomplete_target := "T2" }
      = Except.ok
          { state := { last_valid_target := "T1", penultimate_valid_target := "",
                       incomplete_target := "" },
            available := true, result := some ("T1", some dsT1), deleted := [] } := by
  rfl

/-- C3: with `last_valid_target = "T1"`, `on_new_transaction("T2")` sets
`penultimate_valid_target := "T1"` and `incomplete_target := "T2"` while
leaving `last_valid_target` untouched; after a crash, recovery deletes the
remote object `"T2"` (the first delete attempt succeeds), clears
`incomplete_target`, and hands back `last_valid_target = "T1"` with its
dataset. -/
theorem c3_crash_recovery_round_trip (p : String) (remote : String → LoadRes)
    (attempt : Nat → FsResult) (cloudUrls : List String) (ds : Dataset)
    (hdel : attempt 0 = FsResult.ok) (hT1 : remote "T1" = LoadRes.valid ds) :
    on_new_transaction
        { last_valid_target := "T1", penultimate_valid_target := p, incomplete_target := "" } "T2"
      = { last_valid_target := "T1", penultimate_valid_target := "T1",
          incomplete_target := "T2" } ∧
    initialize_and_validate_paths remote attempt cloudUrls
        { last_valid_target := "T1", penultimate_valid_target := "T1",
          incomplete_target := "T2" }
      = Except.ok
          { state := { last_valid_target := "T1", penultimate_valid_target := "T1",
                       incomplete_target := "" },
            available := true, result := some ("T1", some ds), deleted := ["T2"] } := by
  refine ⟨rfl, ?_⟩
  simp [initialize_and_validate_paths, delete_data, hdel, on_deleted,
    load_validate_target_path, hT1]

/-- C3 witness: the round trip evaluated at a concrete remote store where the
delete succeeds at once and `"T1"` is valid. -/
theorem c3_crash_recovery_round_trip_witness :
    on_new_transaction
        { last_valid_target := "T1", penultimate_valid_target := "", incomplete_target := "" } "T2"
      = { last_valid_target := "T1", penultimate_valid_target := "T1",
          incomplete_target := "T2" } ∧
    initialize_and_validate_paths remoteT1 (fun _ => FsResult.ok) []
        { last_valid_target := "T1", penultimate_valid_target := "T1",
          incomplete_target := "T2" }
      = Except.ok
          { state := { last_valid_target := "T1", penultimate_valid_target := "T1",
                       incomplete_target := "" },
            available := true, result := some ("T1", some dsT1), deleted := ["T2"] } :=
  c3_crash_recovery_round_trip "" remoteT1 (fun _ => FsResult.ok) [] dsT1 rfl rfl

/-- C4: starting clean, along any trace that respects the driver's calling
discipline, `incomplete_target` is non-empty exactly while a transaction is
open (strictly between `on_new_transaction`/`on_append_transaction` and the
matching `on_complete_transaction`/`on_deleted`), and in particular it is
empty after any trace ending in a completed iteration. -/
theorem c4_mutual_exclusion_of_intent (st : TxState) (es : List TxEvent)
    (hclean : st.incomplete_target = "") (hvalid : validTrace st es = true) :
    ((runTrace st es).incomplete_target ≠ "" ↔ openTransaction false es = true) ∧
    (∀ pre, es = pre ++ [TxEvent.completeTxn] → (runTrace st es).incomplete_target = "") := by
  have main := incomplete_iff_open es st false hvalid (by simp [hclean])
  refine ⟨main, ?_⟩
  intro pre hpre
  subst hpre
  rw [openTransaction_closed_end] at main
  simpa using main

/-- C4 witness: one completed append iteration from a clean state with a
valid last target. -/
theorem c4_mutual_exclusion_of_intent_witness :
    ((runTrace { last_valid_target := "T1", penultimate_valid_target := "",
                 incomplete_target := "" }
        [TxEvent.appendTxn, TxEvent.completeTxn]).incomplete_target ≠ ""
      ↔ openTransaction false [TxEvent.appendTxn, TxEvent.completeTxn] = true) ∧
    (∀ pre, [TxEvent.appendTxn, TxEvent.completeTxn] = pre ++ [TxEvent.completeTxn] →
      (runTrace { last_valid_target := "T1", penultimate_valid_target := "",
                  incomplete_target := "" }
        [TxEvent.appendTxn, TxEvent.completeTxn]).incomplete_target = "") :=
  c4_mutual_exclusion_of_intent
    { last_valid_target := "T1", penultimate_valid_target := "", incomplete_target := "" }
    [TxEvent.appendTxn, TxEvent.completeTxn] rfl (by decide)

/-- C5: `is_appendable` is `true` iff every significant key is present in
both slices' attributes with equal values — a missing key on either side
(Python's `KeyError`, caught by the fail-closed `except`) or a mismatch gives
`false`; with keys `("instrument", "settings_id")`, equal attributes are
appendable and changing `settings_id` from 1 to 2 is not. -/
theorem c5_is_appendable_fail_closed :
    (∀ (d1 d2 : Dataset) (significant_keys : List String),
        is_appendable (some d1) (some d2) significant_keys = true ↔
          ∀ key ∈ significant_keys,
            ∃ v, attrLookup d1.attrs key = some v ∧ attrLookup d2.attrs key = some v) ∧
    is_appendable (some dsA1) (some dsA1b) ["instrument", "settings_id"] = true ∧
    is_appendable (some dsA1) (some dsA2) ["instrument", "settings_id"] = false := by
  refine ⟨fun d1 d2 keys => ?_, by decide, by decide⟩
  simpa [is_appendable] using checkSignificantKeys_iff d1 d2 keys

/-- C6: `is_within_timeframe` is `true` exactly when the new slice's first
timestamp is not later than the calendar-day start of the prior slice's first
timestamp plus `max_timedelta`; with a 1-day span, a prior slice starting at
day 0, 00:00 and a new slice starting at day 2, 00:30 is out of frame. -/
theorem c6_is_within_timeframe_bound :
    (∀ (a1 a2 : List (String × AttrVal)) (h1 h2 t1 t2 : Nat) (r1 r2 : List Nat)
        (max_timedelta : Nat),
        is_within_timeframe (some { attrs := a1, timestamps := t1 :: r1, high_res_size := h1 })
            (some { attrs := a2, timestamps := t2 :: r2, high_res_size := h2 }) max_timedelta
          = decide (t2 ≤ dayStart t1 + max_timedelta)) ∧
    is_within_timeframe (some { attrs := [], timestamps := [0], high_res_size := 0 })
        (some { attrs := [], timestamps := [2 * msPerDay + 30 * msPerMinute],
                high_res_size := 0 })
        msPerDay = false := by
  constructor
  · intro a1 a2 h1 h2 t1 t2 r1 r2 max_timedelta
    simp only [is_within_timeframe, List.head?]
    by_cases h : dayStart t1 + max_timedelta < t2
    · simp [h, Nat.not_le.mpr h]
    · simp [h, Nat.not_lt.mp h]
  · decide

/-- C7: alignment trims the trailing remainder, so the aligned length is
`length - length % 100`: length 237 aligns to 200, a length that is already a
multiple of the chunk size is left untouched, and a slice whose aligned
length is zero (length 50) is dropped by `_stream` with no transaction opened
and no write issued. -/
theorem c7_chunk_alignment :
    (∀ ds : Dataset, (align_to_chunk ds).timestamps.length
        = ds.timestamps.length - ds.timestamps.length % chunkSize) ∧
    (∀ (a : List (String × AttrVal)) (hs : Nat),
        (align_to_chunk { attrs := a,
                          timestamps := List.range 237,
                          high_res_size := hs }).timestamps.length = 200) ∧
    (∀ (a : List (String × AttrVal)) (hs k t : Nat),
        align_to_chunk { attrs := a,
                         timestamps := List.replicate (chunkSize * k) t,
                         high_res_size := hs }
          = { attrs := a,
              timestamps := List.replicate (chunkSize * k) t,
              high_res_size := hs }) ∧
    (∀ (cfg : StreamConfig) (reload : String → Option Dataset) (url : String)
        (ctx : StreamCtx) (a : List (String × AttrVal)) (hs : Nat),
        stream_slice cfg reload url ctx
          { attrs := a, timestamps := List.range 50, high_res_size := hs } = ctx) := by
  refine ⟨fun ds => align_to_chunk_length ds, ?_, ?_, ?_⟩
  · intro a hs
    simp [align_to_chunk_length, chunkSize]
  · intro a hs k t
    simp [align_to_chunk, List.length_replicate, Nat.mul_mod_right]
  · intro cfg reload url ctx a hs
    simp [stream_slice, align_to_chunk_length, chunkSize]

/-- C8: window discovery with a valid prior target whose last ingested
timestamp is `lastTs`: `since` is `lastTs + 1` millisecond unless the
caller's hint is strictly later (a hint at or before `lastTs + 1` is
ignored, so `since` never moves backward), and `until` is the minimum of the
day-start-of-`since` + days-per-target span + minutes margin cutoff, the
wall clock, and the caller's `until` hint. -/
theorem c8_window_discovery (cfg : StreamConfig) (lastTs now u : Nat)
    (since_hint : Option Nat) :
    (∀ h, since_hint = some h → lastTs + 1 < h →
        (discover_timeframe_available cfg lastTs now since_hint (some u)).1 = h) ∧
    (∀ h, since_hint = some h → h ≤ lastTs + 1 →
        (discover_timeframe_available cfg lastTs now since_hint (some u)).1 = lastTs + 1) ∧
    lastTs + 1 ≤ (discover_timeframe_available cfg lastTs now since_hint (some u)).1 ∧
    (discover_timeframe_available cfg lastTs now since_hint (some u)).2
      = min (dayStart (discover_timeframe_available cfg lastTs now since_hint (some u)).1
            + cfg.streaming_days_per_file * msPerDay + cfg.streaming_minutes * msPerMinute)
          (min now u) := by
  refine ⟨?_, ?_, ?_, rfl⟩
  · intro h hh hlt
    subst hh
    simp [discover_timeframe_available, discover_since, hlt]
  · intro h hh hle
    subst hh
    simp [discover_timeframe_available, discover_since, Nat.not_lt.mpr hle]
  · cases since_hint with
    | none => exact Nat.le_refl _
    | some h =>
      simp only [discover_timeframe_available, discover_since]
      split <;> omega

/-- C9: a window whose `until` (as `_update_until` computes it) does not lie
strictly after `since` is empty: the provider (whose slices cover a subset of
the requested range) returns nothing for it, `_progress` then skips a full
days-per-file span and recomputes `until`, which cannot overtake the skip, so
the loop terminates normally with the driver context unchanged — no slice
pulled or ingested, no transaction opened. -/
theorem c9_empty_window_terminates (cfg : StreamConfig)
    (fetch : Nat → Nat → List (String × Dataset)) (reload : String → Option Dataset)
    (now u since fuel : Nat) (ctx : StreamCtx)
    (hdays : 1 ≤ cfg.streaming_days_per_file)
    (hstreamed : ctx.streamed_count = 0)
    (hfetch : ∀ s t, t ≤ s → fetch s t = [])
    (hempty : update_until cfg since now u ≤ since) :
    stream_loop cfg fetch reload now u (fuel + 1) ctx since (update_until cfg since now u)
      = some ctx := by
  have hf : fetch since (update_until cfg since now u) = [] := hfetch _ _ hempty
  have hwin : stream_window cfg fetch reload ctx since (update_until cfg since now u)
      = ctx := by
    simp [stream_window, hf]
  have harith : update_until cfg (since + cfg.streaming_days_per_file * msPerDay) now u
      ≤ since + cfg.streaming_days_per_file * msPerDay := by
    simp only [update_until, dayStart, msPerDay, msPerMinute] at hempty ⊢
    omega
  simp [stream_loop, hwin, hstreamed, harith]

/-- C9 witness: default settings, a provider with no data, wall clock and
hint at 0, `since = 1`: the loop exits at once leaving the cold-start
context untouched. -/
theorem c9_empty_window_terminates_witness :
    stream_loop streamCfg0 (fun _ _ => []) (fun _ => none) 0 0 1 streamCtx0 1
        (update_until streamCfg0 1 0 0) = some streamCtx0 :=
  c9_empty_window_terminates streamCfg0 (fun _ _ => []) (fun _ => none) 0 0 1 0 streamCtx0
    (by decide) rfl (fun _ _ _ => rfl) (by decide)

/-- C10: on a cold start (`last_ds = None`) both classifiers return `false`,
so the first slice whose aligned length is non-zero is written through the
`on_new_transaction` branch, never appended. -/
theorem c10_cold_start_new_target (cfg : StreamConfig) (reload : String → Option Dataset)
    (url : String) (ctx : StreamCtx) (sds : Dataset)
    (hcold : ctx.last_ds = none)
    (hsize : (align_to_chunk sds).timestamps.length ≠ 0) :
    is_appendable ctx.last_ds (some (align_to_chunk sds)) cfg.significant_keys = false ∧
    is_within_timeframe ctx.last_ds (some (align_to_chunk sds))
        (cfg.streaming_days_per_file * msPerDay) = false ∧
    (stream_slice cfg reload url ctx sds).txEvents
      = ctx.txEvents ++ [TxEvent.newTxn url, TxEvent.completeTxn] := by
  refine ⟨by rw [hcold]; rfl, by rw [hcold]; rfl, ?_⟩
  simp [stream_slice, hsize, hcold, is_appendable]

/-- C10 witness: the cold-start context and a one-chunk slice produce exactly
a new-target transaction followed by its completion. -/
theorem c10_cold_start_new_target_witness :
    is_appendable streamCtx0.last_ds (some (align_to_chunk ds100))
        streamCfg0.significant_keys = false ∧
    is_within_timeframe streamCtx0.last_ds (some (align_to_chunk ds100))
        (streamCfg0.streaming_days_per_file * msPerDay) = false ∧
    (stream_slice streamCfg0 (fun _ => none) "root/inst/proj.zarr" streamCtx0 ds100).txEvents
      = streamCtx0.txEvents ++ [TxEvent.newTxn "root/inst/proj.zarr", TxEvent.completeTxn] :=
  c10_cold_start_new_target streamCfg0 (fun _ => none) "root/inst/proj.zarr" streamCtx0 ds100
    rfl (by decide)

/-- C2: `on_append_transaction` sets `incomplete_target` to the old
`last_valid_target` and `last_valid_target` to the old
`penultimate_valid_target` (the returned record is the persisted state); so a
crash right after it, with no completion, leaves the persisted
`last_valid_target` equal to the pre-append `penultimate_valid_target`. -/
theorem c2_on_append_transaction_demotes (st : TxState) :
    (on_append_transaction st).incomplete_target = st.last_valid_target ∧
    (on_append_transaction st).last_valid_target = st.penultimate_valid_target ∧
    (on_append_transaction st).penultimate_valid_target = st.penultimate_valid_target := by
  exact ⟨rfl, rfl, rfl⟩

end IceStream
